import Mathlib

namespace Sisyphus

/-
Verification of the Sisyphus II daily task-management application.

The client sources (React/TypeScript) are embedded shallowly below:
timestamps are modelled as integers counting milliseconds since the Unix
epoch (the value of Date.getTime in JavaScript), JavaScript strings as
Lean strings, and nullable values as Option.  Math.ceil of an exact
ratio with a positive divisor is modelled by exact integer ceiling
division; the timestamps involved are far below the range where IEEE
doubles lose integer precision, so the model is exact on all inputs the
program can see.

The server-side components (reset-window resolution, task
classification, refresh-token coordination) are not part of the
repository sources; they are modelled from the specification, as marked
on each such definition.
-/

/-- A task record, with the fields of the Task interface shared by the
client components.  Date-valued fields hold epoch milliseconds. -/
structure Task where
  id : Int
  title : String
  description : Option String
  is_completed : Bool
  priority : Int
  category : Option String
  due_date : Option Int
  user_id : Int
  created_at : Int
  updated_at : Option Int
  completed_at : Option Int
deriving DecidableEq, Repr

/-- Exact integer ceiling division, modelling Math.ceil (a / b) for a
positive divisor b. -/
def ceilDiv (a b : Int) : Int := -((-a) / b)

/-- The due-date badge states produced by getDueDateStatus in
TaskItem. -/
inductive DueStatus where
  | no_due_date
  | overdue
  | due_today
  | due_tomorrow
  | due_soon
  | due_later
deriving DecidableEq, Repr

/-- getDueDateStatus from TaskItem: diffDays is the ceiling of the
millisecond difference between the due date and now divided by one day,
and the badge is chosen by the sign and size of diffDays. -/
def getDueDateStatus (dueDate : Option Int) (now : Int) : DueStatus :=
  match dueDate with
  | none => DueStatus.no_due_date
  | some due =>
    let diffDays := ceilDiv (due - now) 86400000
    if diffDays < 0 then DueStatus.overdue
    else if diffDays = 0 then DueStatus.due_today
    else if diffDays = 1 then DueStatus.due_tomorrow
    else if diffDays ≤ 7 then DueStatus.due_soon
    else DueStatus.due_later

/-- The per-task test inside the overdueCount computation of the
dashboard: a task counts when it is not completed, has a due date, and
that due date is strictly before now. -/
def countsAsOverdue (t : Task) (now : Int) : Bool :=
  if t.is_completed then false
  else
    match t.due_date with
    | none => false
    | some due => decide (due < now)

/-- The optimistic update performed by toggleTask on the dashboard: the
completion flag is negated, and completed_at becomes the current time
when the task was incomplete and null when it was complete. -/
def toggleOptimistic (t : Task) (now : Int) : Task :=
  { t with
    is_completed := !t.is_completed,
    completed_at := if !t.is_completed then some now else none }

/-- The per-task update performed by handleBulkComplete: the task is
marked completed with completed_at set to the current time. -/
def bulkCompleteUpdate (t : Task) (now : Int) : Task :=
  { t with is_completed := true, completed_at := some now }

/-- Character-list substring test, used to model the JavaScript
String.includes method. -/
def hasSubList : List Char → List Char → Bool
  | [], pat => pat.isEmpty
  | c :: rest, pat => pat.isPrefixOf (c :: rest) || hasSubList rest pat

/-- Model of the JavaScript String.includes method. -/
def jsIncludes (s pat : String) : Bool := hasSubList s.data pat.data

/-- Model of the JavaScript toLowerCase method. -/
def jsToLower (s : String) : String := String.mk (s.data.map Char.toLower)

/-- The due-date filter values of the dashboard search panel. -/
inductive DateFilter where
  | all
  | today
  | tomorrow
  | this_week
  | overdue
deriving DecidableEq, Repr

/-- The filter state of the dashboard task list. -/
structure FilterState where
  searchTerm : String
  showCompleted : Bool
  priorityFilter : Option Int
  dateFilter : DateFilter
  categoryFilter : String
deriving DecidableEq, Repr

/-- The text-search clause of filteredTasks: the lowercased search term
must occur in the lowercased title, description or category. -/
def searchMatches (f : FilterState) (t : Task) : Bool :=
  jsIncludes (jsToLower t.title) (jsToLower f.searchTerm)
  || (match t.description with
      | some d => jsIncludes (jsToLower d) (jsToLower f.searchTerm)
      | none => false)
  || (match t.category with
      | some c => jsIncludes (jsToLower c) (jsToLower f.searchTerm)
      | none => false)

/-- The body of the switch statement in the date-filter clause of
filteredTasks: true when the clause rejects the task. -/
def dateFilterRejects (df : DateFilter) (due now : Int) : Bool :=
  let diffDays := ceilDiv (due - now) 86400000
  match df with
  | DateFilter.all => false
  | DateFilter.today => diffDays != 0
  | DateFilter.tomorrow => diffDays != 1
  | DateFilter.this_week => diffDays < 0 || diffDays > 7
  | DateFilter.overdue => diffDays ≥ 0

/-- The per-task predicate of filteredTasks on the dashboard, with the
clauses in source order: search, completion, priority, category, date.
A task with a null due date skips the date clause entirely, exactly as
the guard dateFilter before a falsy task.due_date does in the source. -/
def taskMatchesFilters (f : FilterState) (now : Int) (t : Task) : Bool :=
  if f.searchTerm != "" && !(searchMatches f t) then false
  else if !f.showCompleted && t.is_completed then false
  else if (match f.priorityFilter with
           | some p => t.priority != p
           | none => false) then false
  else if f.categoryFilter != "all"
      && ((f.categoryFilter == "uncategorized" && t.category.isSome)
          || (f.categoryFilter != "uncategorized"
              && t.category != some f.categoryFilter)) then false
  else
    match t.due_date with
    | none => true
    | some due => !(dateFilterRejects f.dateFilter due now)

/-- filteredTasks on the dashboard: the task list filtered by
taskMatchesFilters. -/
def filteredTasks (f : FilterState) (now : Int) (ts : List Task) : List Task :=
  ts.filter (taskMatchesFilters f now)

/-- The three browser storage locations for one key: the value held (if
any) in localStorage, sessionStorage, and the in-memory fallback of
AuthContext. -/
structure TokenStore where
  localVal : Option String
  sessionVal : Option String
  memoryVal : Option String
deriving DecidableEq, Repr

/-- JavaScript truthiness of a nullable string: null and the empty
string are falsy, so the logical-or chain in getStoredToken skips
them. -/
def jsTruthy (v : Option String) : Option String :=
  match v with
  | some s => if s = "" then none else some s
  | none => none

/-- getStoredToken from AuthContext: localStorage, then sessionStorage,
then the memory fallback, combined with the JavaScript logical-or, with
null as the final default. -/
def getStoredToken (s : TokenStore) : Option String :=
  match jsTruthy s.localVal with
  | some v => some v
  | none =>
    match jsTruthy s.sessionVal with
    | some v => some v
    | none => jsTruthy s.memoryVal

/-- setStoredToken from AuthContext: the localStorage and sessionStorage
writes are each wrapped in a try block, so a throwing write leaves that
store unchanged; the memory fallback is always written.  The flags say
whether the corresponding write throws. -/
def setStoredToken (s : TokenStore) (localThrows sessionThrows : Bool)
    (v : String) : TokenStore :=
  { localVal := if localThrows then s.localVal else some v,
    sessionVal := if sessionThrows then s.sessionVal else some v,
    memoryVal := some v }

/-- What one pass through the axios response-error interceptor does, and
what the handlers of a failed refresh call do. -/
structure InterceptorOutcome where
  refreshAttempted : Bool
  tokensCleared : Bool
  redirectedToLogin : Bool
deriving DecidableEq, Repr

/-- The response-error interceptor of AuthContext, before the outcome of
any refresh call it starts is known.  The outer guard fires on a 401
whose URL is not the refresh endpoint and does not contain the substring
/auth/refresh; inside it, a stored refresh token together with an unset
retry flag starts a refresh, while the already-retried and the
no-refresh-token branches both clear the tokens and redirect to the
login page unless already there.  Any other error passes through. -/
def interceptorOutcome (status : Nat) (url : String)
    (hasRefreshToken retryFlag onLoginPage : Bool) : InterceptorOutcome :=
  if status == 401 && url != "/api/auth/refresh"
      && !(jsIncludes url "/auth/refresh") then
    if hasRefreshToken && !retryFlag then
      { refreshAttempted := true, tokensCleared := false,
        redirectedToLogin := false }
    else
      { refreshAttempted := false, tokensCleared := true,
        redirectedToLogin := !onLoginPage }
  else
    { refreshAttempted := false, tokensCleared := false,
      redirectedToLogin := false }

/-- Whether one pass through the interceptor sends a refresh request to
the server. -/
def triggersRefresh (status : Nat) (url : String)
    (hasRefreshToken retryFlag : Bool) : Bool :=
  (interceptorOutcome status url hasRefreshToken retryFlag false).refreshAttempted

/-- The catch handler around the refresh call inside the interceptor:
a 401 from the refresh endpoint clears both tokens and redirects to the
login page unless already there; every other refresh failure clears both
tokens without redirecting.  No branch retries the refresh. -/
def refreshFailureOutcome (failStatus : Option Nat) (onLoginPage : Bool) :
    InterceptorOutcome :=
  if failStatus = some 401 then
    { refreshAttempted := false, tokensCleared := true,
      redirectedToLogin := !onLoginPage }
  else
    { refreshAttempted := false, tokensCleared := true,
      redirectedToLogin := false }

/-- The catch handler of the proactive five-minute expiry check in
AuthContext (checkTokenExpiration): a failed refresh there is only
logged; no token is cleared and nothing is retried. -/
def proactiveRefreshFailureOutcome (_failStatus : Option Nat) :
    InterceptorOutcome :=
  { refreshAttempted := false, tokensCleared := false,
    redirectedToLogin := false }

/-- One failed response as seen by the interceptor: its HTTP status, the
request URL, and the retry flag of the request configuration. -/
structure RespEvent where
  status : Nat
  url : String
  retryFlag : Bool
deriving DecidableEq, Repr

/-- How many refresh requests a batch of simultaneously failing
responses sends: each failing response passes through the interceptor
independently, all of them reading the same stored refresh token. -/
def refreshCallCount (hasRefreshToken : Bool) (events : List RespEvent) : Nat :=
  (events.filter (fun e =>
    triggersRefresh e.status e.url hasRefreshToken e.retryFlag)).length

/-- The per-user reset schedule: a reset hour and minute forming a valid
time of day. -/
structure UserSchedule where
  reset_hour : Int
  reset_minute : Int
deriving DecidableEq, Repr

/-- A reset window: the half-open interval of one task day. -/
structure ResetWindow where
  start : Int
  stop : Int
deriving DecidableEq, Repr

/-- Offset of the reset instant within a UTC day, in milliseconds. -/
def resetOffset (u : UserSchedule) : Int :=
  (u.reset_hour * 3600 + u.reset_minute * 60) * 1000

/-- Modelled from the spec: the ResetScheduleResolver (windowFor) is not
in the repository sources.  Following the spec, the reset instant of
today is the UTC date portion of now combined with the reset
hour:minute of the user; when now is before that instant the window
runs from the reset instant of yesterday to that of today, otherwise
from today to tomorrow.  All arithmetic is in UTC epoch
milliseconds. -/
def windowFor (u : UserSchedule) (now : Int) : ResetWindow :=
  let todayReset := (now / 86400000) * 86400000 + resetOffset u
  if now < todayReset then
    { start := todayReset - 86400000, stop := todayReset }
  else
    { start := todayReset, stop := todayReset + 86400000 }

/-- The classification statuses of the TaskActivityClassifier. -/
inductive TaskStatus where
  | ACTIVE
  | CARRIED_OVER
  | RESET
deriving DecidableEq, Repr

/-- Modelled from the spec: the persistence test of the classifier (a
future due date still pending) is not in the repository sources; a
task persists across a reset when it has a due date later than now. -/
def persistsPending (t : Task) (now : Int) : Bool :=
  match t.due_date with
  | some due => decide (now < due)
  | none => false

/-- Modelled from the spec: the TaskActivityClassifier (classify) is not
in the repository sources.  A completed task whose completed_at lies in
the current window stays visible as completed (ACTIVE); one completed in
a prior window is CARRIED_OVER when it persists and RESET otherwise; a
task that is not completed is ACTIVE. -/
def classify (t : Task) (w : ResetWindow) (now : Int) : TaskStatus :=
  if t.is_completed then
    match t.completed_at with
    | some c =>
      if w.start ≤ c ∧ c < w.stop then TaskStatus.ACTIVE
      else if persistsPending t now then TaskStatus.CARRIED_OVER
      else TaskStatus.RESET
    | none => TaskStatus.ACTIVE
  else TaskStatus.ACTIVE

/-- Modelled from the spec: applying the daily reset to a task revokes
its completion, clearing the flag and nulling completed_at. -/
def applyReset (t : Task) : Task :=
  { t with is_completed := false, completed_at := none }

/-- A freshly issued token pair. -/
structure TokenPair where
  access_token : Nat
  refresh_token : Nat
deriving DecidableEq, Repr

/-- Result of a refresh-token exchange. -/
inductive RefreshResult where
  | ok (pair : TokenPair)
  | invalid
  | reused
deriving DecidableEq, Repr

/-- Modelled from the spec: the shared state of the
SessionRefreshCoordinator, which is not in the repository sources.  The
set of currently exchangeable refresh tokens, the set of tokens already
exchanged once, and a counter from which new token identities are
minted.  Token expiry is folded into membership of the valid set, since
the claims concern single use and concurrency, not expiry timing. -/
structure CoordState where
  valid : Finset Nat
  used : Finset Nat
  fresh : Nat
deriving DecidableEq

/-- Modelled from the spec: one refresh-token exchange, executed as the
atomic check-and-invalidate the spec mandates.  A valid token is
invalidated, recorded as used, and a new pair is issued whose refresh
token becomes the only newly valid token; a token already exchanged
yields REUSED; anything else yields INVALID. -/
def refresh (s : CoordState) (t : Nat) : RefreshResult × CoordState :=
  if t ∈ s.valid then
    (RefreshResult.ok { access_token := s.fresh, refresh_token := s.fresh + 1 },
     { valid := insert (s.fresh + 1) (s.valid.erase t),
       used := insert t s.used,
       fresh := s.fresh + 2 })
  else if t ∈ s.used then (RefreshResult.reused, s)
  else (RefreshResult.invalid, s)

/-- Folding a sequence of refresh calls over the coordinator state,
keeping only the state. -/
def applyOps (s : CoordState) (ops : List Nat) : CoordState :=
  ops.foldl (fun st tok => (refresh st tok).2) s

/-- Freshness invariant of the coordinator: every currently valid token
was minted below the counter. -/
def CoordInv (s : CoordState) : Prop :=
  ∀ x ∈ s.valid, x < s.fresh

/-- A filter state used to instantiate the C10 theorem. -/
def wtFilters : FilterState :=
  { searchTerm := "", showCompleted := true, priorityFilter := none,
    dateFilter := DateFilter.all, categoryFilter := "all" }

/-- A task without a due date used to instantiate the C10 theorem. -/
def wtTask : Task :=
  { id := 1, title := "water plants", description := none,
    is_completed := false, priority := 2, category := none,
    due_date := none, user_id := 1, created_at := 1704000000000,
    updated_at := none, completed_at := none }

/-- The task of the boundary scenario: completed at
2024-01-01T23:59:00Z, no due date. -/
def boundaryTask : Task :=
  { id := 1, title := "morning run", description := none,
    is_completed := true, priority := 2, category := none,
    due_date := none, user_id := 1, created_at := 1704100000000,
    updated_at := none, completed_at := some 1704153540000 }

/-- C8: the optimistic toggle negates the completion flag and stamps
completed_at with the current time exactly when the task was incomplete,
so the result always satisfies the invariant that completed_at is
non-null exactly when the flag is set; the bulk-complete update
satisfies the same invariant. -/
theorem toggle_completion_invariant (t : Task) (now : Int) :
    (toggleOptimistic t now).is_completed = !t.is_completed
    ∧ (toggleOptimistic t now).completed_at
        = (if t.is_completed then none else some now)
    ∧ ((toggleOptimistic t now).is_completed = true
        ↔ (toggleOptimistic t now).completed_at ≠ none)
    ∧ ((bulkCompleteUpdate t now).is_completed = true
        ↔ (bulkCompleteUpdate t now).completed_at ≠ none) := by
  cases h : t.is_completed <;>
    simp [toggleOptimistic, bulkCompleteUpdate, h]

/-- C4 counterexample: at now 2024-01-02T00:00:00Z, a due date one hour
earlier is strictly before now, yet the due-date badge of TaskItem
reports due_today rather than overdue, completion aside. -/
theorem dueStatus_hour_before_now_not_overdue :
    getDueDateStatus (some 1704150000000) 1704153600000 = DueStatus.due_today
    ∧ (1704150000000 : Int) < 1704153600000
    ∧ DueStatus.due_today ≠ DueStatus.overdue := by decide

/-- C4 amended: the dashboard overdue count reports a task overdue
exactly when it is not completed and its due date is strictly before
now, with no reset window entering the computation, and it does report
the scenario task due 2024-01-01 at now 2024-01-02; the per-task badge
instead reports overdue exactly when the due date is at least one full
day before now. -/
theorem overdue_reporting_semantics (t : Task) (now due : Int) :
    (countsAsOverdue t now = true
      ↔ t.is_completed = false ∧ ∃ d, t.due_date = some d ∧ d < now)
    ∧ (getDueDateStatus (some due) now = DueStatus.overdue
      ↔ due + 86400000 ≤ now)
    ∧ countsAsOverdue
        { id := 1, title := "report", description := none,
          is_completed := false, priority := 2, category := none,
          due_date := some 1704067200000, user_id := 1,
          created_at := 1704000000000, updated_at := none,
          completed_at := none } 1704153600000 = true
    ∧ getDueDateStatus (some 1704067200000) 1704153600000
        = DueStatus.overdue := by
  refine ⟨?_, ?_, by decide, by decide⟩
  · unfold countsAsOverdue
    cases h : t.is_completed <;> cases hd : t.due_date <;> simp [h, hd]
  · unfold getDueDateStatus ceilDiv
    dsimp only
    split_ifs with h1 h2 h3 h4 <;> simp <;> omega

/-- C10: a task with a null due date is never excluded by the due-date
filter: its filter verdict is the same under every dateFilter value as
under the value all, and whenever it passes the remaining filters it is
a member of filteredTasks under every dateFilter value. -/
theorem null_due_date_passes_date_filters (f : FilterState) (now : Int)
    (t : Task) (df : DateFilter) (hd : t.due_date = none) :
    taskMatchesFilters { f with dateFilter := df } now t
      = taskMatchesFilters { f with dateFilter := DateFilter.all } now t
    ∧ ∀ ts : List Task, t ∈ ts →
        taskMatchesFilters { f with dateFilter := DateFilter.all } now t = true →
        t ∈ filteredTasks { f with dateFilter := df } now ts := by
  have h1 : taskMatchesFilters { f with dateFilter := df } now t
      = taskMatchesFilters { f with dateFilter := DateFilter.all } now t := by
    simp [taskMatchesFilters, searchMatches, hd]
  refine ⟨h1, fun ts hts hall => ?_⟩
  exact List.mem_filter.mpr ⟨hts, h1.trans hall⟩

/-- C10 witness: the sample task without a due date is kept by the
overdue filter. -/
theorem null_due_date_passes_date_filters_witness :
    wtTask ∈ filteredTasks { wtFilters with dateFilter := DateFilter.overdue }
      1704153600000 [wtTask] :=
  (null_due_date_passes_date_filters wtFilters 1704153600000 wtTask
      DateFilter.overdue rfl).2 [wtTask] (by decide) (by decide)

/-- C9 counterexample: with all three stores empty and both writes
succeeding, storing the empty string yields a null read, because the
JavaScript logical-or chain skips empty strings; and when the
localStorage write throws while localStorage holds a stale value, the
read returns the stale value rather than the one just stored. -/
theorem storage_set_get_counterexample :
    (getStoredToken (setStoredToken ⟨none, none, none⟩ false false "") = none
      ∧ (none : Option String) ≠ some "")
    ∧ (getStoredToken
          (setStoredToken ⟨some "stale", none, none⟩ true false "new")
        = some "stale"
      ∧ ("stale" : String) ≠ "new") := by decide

/-- C9 amended: for a nonempty value, a read after a write returns that
value in every failure shape of the two throwing stores, provided a
store whose write throws does not hold a different truthy value for the
key: the memory fallback always records the write and the read falls
through localStorage, then sessionStorage, then memory. -/
theorem storage_set_get_roundtrip (s : TokenStore) (lt st : Bool)
    (v : String) (hv : v ≠ "")
    (hl : lt = true → jsTruthy s.localVal = none ∨ s.localVal = some v)
    (hs : st = true → jsTruthy s.sessionVal = none ∨ s.sessionVal = some v) :
    getStoredToken (setStoredToken s lt st v) = some v := by
  have hjv : jsTruthy (some v) = some v := by simp [jsTruthy, hv]
  cases lt with
  | false => simp [setStoredToken, getStoredToken, hjv]
  | true =>
    rcases hl rfl with h | h
    · cases st with
      | false => simp [setStoredToken, getStoredToken, h, hjv]
      | true =>
        rcases hs rfl with h2 | h2
        · simp [setStoredToken, getStoredToken, h, h2, hjv]
        · simp [setStoredToken, getStoredToken, h, h2, hjv]
    · simp [setStoredToken, getStoredToken, h, hjv]

/-- C9 witness: with both browser stores throwing on a fresh key, the
value is still read back from the memory fallback. -/
theorem storage_set_get_roundtrip_witness :
    getStoredToken (setStoredToken ⟨none, none, none⟩ true true "tok")
      = some "tok" :=
  storage_set_get_roundtrip ⟨none, none, none⟩ true true "tok" (by decide)
    (fun _ => Or.inl (by decide)) (fun _ => Or.inl (by decide))

/-- C5 counterexample: a 401 from a non-refresh URL with no stored
refresh token does not trigger a refresh, so a 401 triggers the refresh
flow under strictly narrower conditions than the URL test alone. -/
theorem interceptor_trigger_requires_token :
    triggersRefresh 401 "/api/tasks/" false false = false
    ∧ ("/api/tasks/" : String) ≠ "/api/auth/refresh" := by decide

/-- C5 amended: a 401 from the refresh endpoint itself never does
anything in the interceptor (in particular never triggers another
refresh); a refresh is triggered exactly by a 401 whose URL does not
contain the substring for the refresh endpoint, when a refresh token is
stored and the request has not already been retried; and a 401 failure
of the interceptor refresh call ends the session, clearing tokens and
redirecting to login unless already there. -/
theorem interceptor_trigger_characterization (status : Nat) (url : String)
    (hr rf onLogin : Bool) :
    interceptorOutcome 401 "/api/auth/refresh" hr rf onLogin
      = { refreshAttempted := false, tokensCleared := false,
          redirectedToLogin := false }
    ∧ triggersRefresh status url hr rf
      = ((status == 401) && !(jsIncludes url "/auth/refresh") && hr && !rf)
    ∧ refreshFailureOutcome (some 401) onLogin
      = { refreshAttempted := false, tokensCleared := true,
          redirectedToLogin := !onLogin } := by
  have hstr : jsIncludes "/api/auth/refresh" "/auth/refresh" = true := by decide
  refine ⟨?_, ?_, ?_⟩
  · simp [interceptorOutcome, hstr]
  · by_cases hu : url = "/api/auth/refresh"
    · subst hu
      simp [triggersRefresh, interceptorOutcome, hstr]
    · have h2 : (url != "/api/auth/refresh") = true := bne_iff_ne.mpr hu
      unfold triggersRefresh interceptorOutcome
      rw [h2]
      cases status == 401 <;> cases jsIncludes url "/auth/refresh" <;>
        cases hr <;> cases rf <;> simp
  · simp [refreshFailureOutcome]

/-- C6 counterexample: three responses failing simultaneously with 401
on a non-refresh URL, each not yet retried and all seeing the stored
refresh token, produce three refresh requests, not one. -/
theorem three_simultaneous_failures_three_refresh_calls :
    refreshCallCount true
      [⟨401, "/api/tasks/", false⟩, ⟨401, "/api/tasks/", false⟩,
       ⟨401, "/api/tasks/", false⟩] = 3
    ∧ (3 : Nat) ≠ 1 := by decide

/-- C6 amended: the interceptor performs no coalescing: every response
in a batch of simultaneous 401 failures on a non-refresh URL, none yet
retried and a refresh token stored, triggers its own refresh request, so
the number of refresh calls equals the number of failing responses. -/
theorem refresh_calls_one_per_failure (events : List RespEvent)
    (h : ∀ e ∈ events,
      e.status = 401 ∧ e.url = "/api/tasks/" ∧ e.retryFlag = false) :
    refreshCallCount true events = events.length := by
  unfold refreshCallCount
  have hp : ∀ e ∈ events,
      triggersRefresh e.status e.url true e.retryFlag = true := by
    intro e he
    obtain ⟨h1, h2, h3⟩ := h e he
    rw [h1, h2, h3]
    decide
  rw [List.filter_eq_self.mpr hp]

/-- C6 witness: two simultaneous failures produce two refresh calls. -/
theorem refresh_calls_one_per_failure_witness :
    refreshCallCount true
      [⟨401, "/api/tasks/", false⟩, ⟨401, "/api/tasks/", false⟩] = 2 :=
  (refresh_calls_one_per_failure
      [⟨401, "/api/tasks/", false⟩, ⟨401, "/api/tasks/", false⟩]
      (by decide)).trans (by decide)

/-- C7 counterexample: when the proactive expiry-check refresh fails
(here with status 500), the handler only logs: no token is cleared, so
not every failed refresh request clears the stored tokens. -/
theorem proactive_refresh_failure_keeps_tokens :
    (proactiveRefreshFailureOutcome (some 500)).tokensCleared = false
    ∧ (refreshFailureOutcome (some 500) false).tokensCleared = true := by
  decide

/-- C7 amended: the refresh-failure handler of the 401 interceptor
clears the stored tokens for every failure cause and never re-attempts
the refresh, and a 401 carried by the refresh request itself does not
re-enter the refresh path; only the proactive expiry-check path leaves
tokens in place on failure. -/
theorem interceptor_refresh_failure_clears_tokens (failStatus : Option Nat)
    (onLogin : Bool) :
    (refreshFailureOutcome failStatus onLogin).tokensCleared = true
    ∧ (refreshFailureOutcome failStatus onLogin).refreshAttempted = false
    ∧ (interceptorOutcome 401 "/api/auth/refresh" true false
        onLogin).refreshAttempted = false := by
  have hstr : jsIncludes "/api/auth/refresh" "/auth/refresh" = true := by decide
  refine ⟨?_, ?_, ?_⟩
  · unfold refreshFailureOutcome
    split <;> rfl
  · unfold refreshFailureOutcome
    split <;> rfl
  · simp [interceptorOutcome, hstr]

/-- Normal form of windowFor: for a reset offset inside one day, the
window anchored at the reset offset that contains the instant. -/
theorem windowFor_normal (u : UserSchedule) (t : Int)
    (h1 : 0 ≤ resetOffset u) (h2 : resetOffset u < 86400000) :
    windowFor u t =
      { start := resetOffset u + 86400000 * ((t - resetOffset u) / 86400000),
        stop := resetOffset u + 86400000 * ((t - resetOffset u) / 86400000)
          + 86400000 } := by
  unfold windowFor
  simp only []
  split <;> simp only [ResetWindow.mk.injEq] <;> omega

/-- C2: for every valid reset hour and minute and every instant t, the
resolved window contains t; every instant inside that window resolves to
the identical window; and the instant exactly 24 hours later resolves to
a different window. -/
theorem windowFor_contains_and_tiles (h m t : Int)
    (hh0 : 0 ≤ h) (hh1 : h ≤ 23) (hm0 : 0 ≤ m) (hm1 : m ≤ 59) :
    ((windowFor ⟨h, m⟩ t).start ≤ t ∧ t < (windowFor ⟨h, m⟩ t).stop)
    ∧ (∀ u, (windowFor ⟨h, m⟩ t).start ≤ u → u < (windowFor ⟨h, m⟩ t).stop →
        windowFor ⟨h, m⟩ u = windowFor ⟨h, m⟩ t)
    ∧ windowFor ⟨h, m⟩ (t + 86400000) ≠ windowFor ⟨h, m⟩ t := by
  have hr0 : 0 ≤ resetOffset ⟨h, m⟩ := by
    simp only [resetOffset]
    omega
  have hr1 : resetOffset ⟨h, m⟩ < 86400000 := by
    simp only [resetOffset]
    omega
  rw [windowFor_normal _ _ hr0 hr1]
  dsimp only
  refine ⟨⟨?_, ?_⟩, ?_, ?_⟩
  · set r := resetOffset ⟨h, m⟩
    omega
  · set r := resetOffset ⟨h, m⟩
    omega
  · intro u hu1 hu2
    rw [windowFor_normal _ _ hr0 hr1]
    simp only [ResetWindow.mk.injEq]
    set r := resetOffset ⟨h, m⟩
    omega
  · rw [windowFor_normal _ _ hr0 hr1]
    intro heq
    simp only [ResetWindow.mk.injEq] at heq
    set r := resetOffset ⟨h, m⟩
    omega

/-- C2 witness: a late reset schedule and a concrete instant. -/
theorem windowFor_contains_and_tiles_witness :
    (windowFor ⟨23, 59⟩ 1704153601000).start ≤ 1704153601000
    ∧ 1704153601000 < (windowFor ⟨23, 59⟩ 1704153601000).stop :=
  (windowFor_contains_and_tiles 23 59 1704153601000 (by decide) (by decide)
    (by decide) (by decide)).1

/-- C3: for a user with reset at midnight, the task completed at
2024-01-01T23:59:00Z classifies as RESET at now 2024-01-02T00:00:01Z,
and applying the reset clears the completion flag and nulls
completed_at. -/
theorem classify_midnight_boundary_reset :
    classify boundaryTask (windowFor ⟨0, 0⟩ 1704153601000) 1704153601000
      = TaskStatus.RESET
    ∧ (applyReset boundaryTask).is_completed = false
    ∧ (applyReset boundaryTask).completed_at = none := by decide

/-- One refresh step preserves the freshness invariant and the facts
that an already exchanged token stays exchanged, below the counter, and
out of the valid set. -/
theorem refresh_step_preserves (s : CoordState) (t u : Nat)
    (hInv : CoordInv s) (hlt : t < s.fresh) (hused : t ∈ s.used)
    (hnv : t ∉ s.valid) :
    CoordInv (refresh s u).2 ∧ t < (refresh s u).2.fresh
    ∧ t ∈ (refresh s u).2.used ∧ t ∉ (refresh s u).2.valid := by
  unfold refresh
  split_ifs with h1 h2
  · refine ⟨?_, ?_, ?_, ?_⟩
    · intro x hx
      dsimp only at hx ⊢
      rcases Finset.mem_insert.mp hx with rfl | hx2
      · omega
      · have := hInv x (Finset.mem_of_mem_erase hx2)
        omega
    · dsimp only
      omega
    · dsimp only
      exact Finset.mem_insert_of_mem hused
    · dsimp only
      intro hx
      rcases Finset.mem_insert.mp hx with rfl | hx2
      · omega
      · exact hnv (Finset.mem_of_mem_erase hx2)
  · exact ⟨hInv, hlt, hused, hnv⟩
  · exact ⟨hInv, hlt, hused, hnv⟩

/-- A sequence of refresh calls preserves the exchanged status of a
token: it stays used and never becomes valid again. -/
theorem applyOps_preserves (ops : List Nat) (s : CoordState) (t : Nat)
    (hInv : CoordInv s) (hlt : t < s.fresh) (hused : t ∈ s.used)
    (hnv : t ∉ s.valid) :
    t ∈ (applyOps s ops).used ∧ t ∉ (applyOps s ops).valid := by
  induction ops generalizing s with
  | nil => exact ⟨hused, hnv⟩
  | cons u rest ih =>
    obtain ⟨h1, h2, h3, h4⟩ := refresh_step_preserves s t u hInv hlt hused hnv
    exact ih (refresh s u).2 h1 h2 h3 h4

/-- A refresh call on a token that is no longer valid but was exchanged
before answers REUSED. -/
theorem refresh_reused_of (s : CoordState) (t : Nat) (hnv : t ∉ s.valid)
    (hu : t ∈ s.used) : (refresh s t).1 = RefreshResult.reused := by
  unfold refresh
  rw [if_neg hnv, if_pos hu]

/-- C1: presenting one valid refresh token to two refresh calls, the
call that commits first receives the new pair and the other receives
REUSED; since each call is the single atomic check-and-invalidate the
spec mandates, every interleaving of the two calls is one of the two
serial orders, and both orders are this computation, so no interleaving
issues two pairs for the one token; moreover after arbitrary further
refresh traffic the token still answers REUSED, so a token successfully
exchanged once is never exchangeable again. -/
theorem refresh_concurrent_single_use (s : CoordState) (t : Nat)
    (ops : List Nat) (hInv : CoordInv s) (hv : t ∈ s.valid) :
    (refresh s t).1
      = RefreshResult.ok { access_token := s.fresh, refresh_token := s.fresh + 1 }
    ∧ (refresh (refresh s t).2 t).1 = RefreshResult.reused
    ∧ (refresh (applyOps (refresh s t).2 ops) t).1 = RefreshResult.reused := by
  have hlt : t < s.fresh := hInv t hv
  have h1 : refresh s t
      = (RefreshResult.ok { access_token := s.fresh, refresh_token := s.fresh + 1 },
         { valid := insert (s.fresh + 1) (s.valid.erase t),
           used := insert t s.used, fresh := s.fresh + 2 }) := by
    unfold refresh
    rw [if_pos hv]
  have hnv1 : t ∉ (refresh s t).2.valid := by
    rw [h1]
    dsimp only
    intro hx
    rcases Finset.mem_insert.mp hx with h | h
    · omega
    · exact (Finset.mem_erase.mp h).1 rfl
  have hused1 : t ∈ (refresh s t).2.used := by
    rw [h1]
    exact Finset.mem_insert_self _ _
  have hlt1 : t < (refresh s t).2.fresh := by
    rw [h1]
    dsimp only
    omega
  have hInv1 : CoordInv (refresh s t).2 := by
    rw [h1]
    intro x hx
    dsimp only at hx ⊢
    rcases Finset.mem_insert.mp hx with rfl | hx2
    · omega
    · have := hInv x (Finset.mem_of_mem_erase hx2)
      omega
  refine ⟨by rw [h1], refresh_reused_of _ _ hnv1 hused1, ?_⟩
  obtain ⟨hu2, hv2⟩ := applyOps_preserves ops (refresh s t).2 t hInv1 hlt1
    hused1 hnv1
  exact refresh_reused_of _ _ hv2 hu2

/-- C1 witness: a coordinator holding the single valid token 0 with
counter 1, refreshed twice and then after two more calls. -/
theorem refresh_concurrent_single_use_witness :
    (refresh ⟨{0}, ∅, 1⟩ 0).1
      = RefreshResult.ok { access_token := 1, refresh_token := 2 }
    ∧ (refresh (refresh ⟨{0}, ∅, 1⟩ 0).2 0).1 = RefreshResult.reused
    ∧ (refresh (applyOps (refresh ⟨{0}, ∅, 1⟩ 0).2 [7, 2]) 0).1
      = RefreshResult.reused :=
  refresh_concurrent_single_use ⟨{0}, ∅, 1⟩ 0 [7, 2]
    (by unfold CoordInv; decide) (by decide)

end Sisyphus
